import Mathlib

/-
  Verification of the admin-dashboard screens (messages, users, orders,
  products) of this repository.  Each screen is a React component whose
  state is a local list of documents plus a form buffer; every event
  handler is embedded below as a pure function from the old state (and the
  outcome of the backend call it performs) to the new state.  Backend
  calls are modelled by an explicit success flag: the `try` branch of the
  handler runs on success, the `catch` branch (alert, no local mutation)
  on failure.
-/

namespace AdminDashboard

/-- Message mirrors the `Message` interface of `src/app/messages/page.tsx`:
`_id`, `name`, `email`, `message` (the body text), `createdAt` (an ISO-8601
creation timestamp; modelled as a natural number, since ISO-8601 strings of
a common zone compare exactly like the instants they denote) and the
`pinned` flag. -/
structure Message where
  _id : String
  name : String
  email : String
  message : String
  createdAt : Nat
  pinned : Bool
deriving DecidableEq

/-- msgRel is the ordering requested from the backend by `fetchMessages`:
the GROQ query ends in `order(pinned desc, createdAt desc)`, i.e. pinned
documents first and, on equal `pinned`, larger (newer) `createdAt` first. -/
def msgRel (a b : Message) : Prop :=
  (a.pinned = true ∧ b.pinned = false) ∨ (a.pinned = b.pinned ∧ b.createdAt ≤ a.createdAt)

instance : DecidableRel msgRel := fun a b => by
  unfold msgRel; infer_instance

instance : IsTotal Message msgRel := by
  constructor
  intro a b
  cases ha : a.pinned <;> cases hb : b.pinned <;>
    rcases Nat.le_total a.createdAt b.createdAt with h | h <;>
      simp [msgRel, ha, hb, h]

instance : IsTrans Message msgRel := by
  constructor
  intro a b c hab hbc
  rcases hab with ⟨ha, hb⟩ | ⟨hab, hba⟩ <;> rcases hbc with ⟨hb2, hc⟩ | ⟨hbc, hcb⟩
  · simp_all [msgRel]
  · exact Or.inl ⟨ha, hbc ▸ hb⟩
  · exact Or.inl ⟨hab ▸ hb2, hc⟩
  · exact Or.inr ⟨hab.trans hbc, le_trans hcb hba⟩

/-- fetchMessages models the load of the messages screen: the backend
evaluates the query `*[_type=="message"] | order(pinned desc, createdAt
desc)` over the stored documents and the handler stores the result as the
local list.  The backend's ordered query is modelled as an insertion sort
by `msgRel`. -/
def fetchMessages (docs : List Message) : List Message :=
  List.insertionSort msgRel docs

/-- pinnedMessages is the partition `messages.filter((msg) => msg.pinned)`
computed at render time. -/
def pinnedMessages (msgs : List Message) : List Message :=
  msgs.filter (fun m => m.pinned)

/-- unpinnedMessages is the partition `messages.filter((msg) => !msg.pinned)`
computed at render time. -/
def unpinnedMessages (msgs : List Message) : List Message :=
  msgs.filter (fun m => !m.pinned)

/-- renderedMessages is the top-to-bottom order in which the screen renders
the message cards: the whole `pinnedMessages` section first, then the
whole `unpinnedMessages` section, each in list order. -/
def renderedMessages (msgs : List Message) : List Message :=
  pinnedMessages msgs ++ unpinnedMessages msgs

/-- togglePin embeds `togglePin(id, currentPinned)` of the messages screen.
On success the backend patch sets `pinned` to `!currentPinned` and returns
the updated document, and the handler maps the local list, replacing every
message whose `_id` matches by a copy whose `pinned` is the returned value;
on failure (`catch`) it alerts and leaves the list unchanged. -/
def togglePin (msgs : List Message) (id : String) (currentPinned : Bool)
    (ok : Bool) : List Message :=
  if ok then
    msgs.map (fun m => if m._id = id then { m with pinned := !currentPinned } else m)
  else msgs

/-- handleDeleteMessage embeds `handleDelete(id)` of the messages screen:
nothing happens unless the confirmation dialog is accepted; then on backend
success the local list is filtered to the messages whose `_id` differs,
and on failure it is left unchanged. -/
def handleDeleteMessage (msgs : List Message) (id : String)
    (confirmed ok : Bool) : List Message :=
  if confirmed then
    if ok then msgs.filter (fun m => m._id != id) else msgs
  else msgs

/-- MsgOp is an operation available on the loaded messages screen:
a pin toggle (carrying the `currentPinned` argument the click passes and
the backend outcome) or a delete (carrying the confirmation answer and
the backend outcome). -/
inductive MsgOp where
  | togglePinOp (id : String) (currentPinned : Bool) (ok : Bool)
  | deleteOp (id : String) (confirmed : Bool) (ok : Bool)

/-- applyMsgOp runs one messages-screen operation on the local list. -/
def applyMsgOp (msgs : List Message) : MsgOp → List Message
  | .togglePinOp id cur ok => togglePin msgs id cur ok
  | .deleteOp id confirmed ok => handleDeleteMessage msgs id confirmed ok

/-- reachMessages is the local list after a load of `docs` followed by the
given sequence of toggle/delete operations. -/
def reachMessages (docs : List Message) (ops : List MsgOp) : List Message :=
  ops.foldl applyMsgOp (fetchMessages docs)

/-- pinnedBeforeUnpinned states that in the given rendered order no pinned
message appears after an unpinned one. -/
def pinnedBeforeUnpinned (l : List Message) : Prop :=
  l.Pairwise (fun a b => b.pinned = true → a.pinned = true)

/-- displayOrdered states the full ordering of the spec: pinned before
unpinned and, within equal pinnedness, newest (larger `createdAt`) first. -/
def displayOrdered (l : List Message) : Prop :=
  l.Pairwise msgRel

instance (l : List Message) : Decidable (pinnedBeforeUnpinned l) := by
  unfold pinnedBeforeUnpinned; infer_instance

instance (l : List Message) : Decidable (displayOrdered l) := by
  unfold displayOrdered; infer_instance

/-- isDeleteOp holds for the delete operations of the messages screen. -/
def isDeleteOp : MsgOp → Prop
  | .deleteOp _ _ _ => True
  | .togglePinOp _ _ _ => False

/-- falsyStr is JS falsiness of an optional string field: `undefined` (here
`none`) and the empty string are the falsy cases. -/
def falsyStr (o : Option String) : Bool :=
  (o.getD "").isEmpty

/-- orEmptyDefault models the JS idiom `x || d` on an optional string field:
an absent or empty value falls back to the default `d`. -/
def orEmptyDefault (o : Option String) (d : String) : String :=
  if (o.getD "").isEmpty then d else o.getD ""

/-- Address mirrors the nested address object of the `User` interface of the
users screen. -/
structure Address where
  street : String
  city : String
  state : String
  country : String
  postalCode : String
deriving DecidableEq

/-- User mirrors the `User` interface of `src/app/user/page.tsx` (users
screen): role is the raw string of the select (`user` or `admin`). -/
structure User where
  _id : String
  name : String
  email : String
  mobileNumber : String
  password : String
  address : Address
  isVerified : Bool
  role : String
deriving DecidableEq

/-- AddressInput is the optional nested address of `UserInput`.  The source
makes the whole `address` object optional, but only ever reads it through the
optional chain `formState.address?.field` and the spread
`{ ...prev.address, [field]: value }`, under which an absent object behaves
exactly like one whose five fields are all absent, so the object is
flattened here. -/
structure AddressInput where
  street : Option String := none
  city : Option String := none
  state : Option String := none
  country : Option String := none
  postalCode : Option String := none
deriving DecidableEq

/-- UserInput mirrors `UserInput`, the form buffer of the users screen; a JS
field that is `undefined` is `none`. -/
structure UserInput where
  _id : Option String := none
  name : Option String := none
  email : Option String := none
  mobileNumber : Option String := none
  password : Option String := none
  address : AddressInput := {}
  isVerified : Option Bool := none
  role : Option String := none
deriving DecidableEq

/-- userFormInvalid is the required-fields check at the top of the users
screen's handleAddNew: the submission is rejected when any of the nine listed
fields is falsy (absent or empty). -/
def userFormInvalid (f : UserInput) : Bool :=
  falsyStr f.name || falsyStr f.email || falsyStr f.mobileNumber ||
    falsyStr f.password || falsyStr f.address.street || falsyStr f.address.city ||
    falsyStr f.address.state || falsyStr f.address.country ||
    falsyStr f.address.postalCode

/-- NewUserDocument mirrors `NewUserDocument`, the payload of `client.create`
on the users screen; `_type` is the constant "user". -/
structure NewUserDocument where
  _type : String
  name : String
  email : String
  mobileNumber : String
  password : String
  address : Address
  isVerified : Bool
  role : String
deriving DecidableEq

/-- mkNewUserDocument builds `newUserData` inside the users screen's
handleAddNew: `_id` is dropped from the buffer, `isVerified` defaults with the
nullish coalescing `?? false` (an explicit `false` is kept), `role` with the
JS or `|| "user"` (absent and empty both fall back).  The source's non-null
assertions (`userData.name!` and so on) are modelled by `Option.getD ""`;
validation has already ruled those cases out wherever this payload is built. -/
def mkNewUserDocument (f : UserInput) : NewUserDocument :=
  { _type := "user"
    name := f.name.getD ""
    email := f.email.getD ""
    mobileNumber := f.mobileNumber.getD ""
    password := f.password.getD ""
    address :=
      { street := f.address.street.getD ""
        city := f.address.city.getD ""
        state := f.address.state.getD ""
        country := f.address.country.getD ""
        postalCode := f.address.postalCode.getD "" }
    isVerified := f.isVerified.getD false
    role := orEmptyDefault f.role "user" }

/-- createdUser is the document the backend returns from `client.create`: the
submitted payload together with the id the backend generated. -/
def createdUser (newId : String) (p : NewUserDocument) : User :=
  { _id := newId, name := p.name, email := p.email,
    mobileNumber := p.mobileNumber, password := p.password,
    address := p.address, isVerified := p.isVerified, role := p.role }

/-- UserScreen is the state of the users screen: the local list and the
form/editor state (`editingUser`, `showAddForm`, `formState`). -/
structure UserScreen where
  users : List User
  editingUser : Option User := none
  showAddForm : Bool := false
  formState : UserInput := {}
deriving DecidableEq

/-- UserSubmitResult pairs the state after a submission with what the handler
did: `createCall` is the payload of the `client.create` call if one was
issued, and `alerted` records whether a blocking alert was shown. -/
structure UserSubmitResult where
  state : UserScreen
  createCall : Option NewUserDocument := none
  alerted : Bool := false
deriving DecidableEq

/-- handleAddNewUser embeds handleAddNew of the users screen: an invalid
buffer is rejected with an alert and no backend call; otherwise the payload is
created, and on success the returned document is appended to the local list
and the form is closed and reset, while on failure the handler alerts and
mutates nothing. -/
def handleAddNewUser (s : UserScreen) (newId : String) (ok : Bool) :
    UserSubmitResult :=
  if userFormInvalid s.formState then
    { state := s, createCall := none, alerted := true }
  else
    let payload := mkNewUserDocument s.formState
    if ok then
      { state :=
          { s with
            users := s.users ++ [createdUser newId payload]
            showAddForm := false
            formState := {} }
        createCall := some payload }
    else
      { state := s, createCall := some payload, alerted := true }

/-- handleUpdateUser embeds handleUpdate of the users screen.  The guard
`if (editingUser && editingUser._id)` requires an editing target with a truthy
id.  On success the commit response `updated` — the full patched document the
backend returns — replaces every local record with the matching id and the
form closes and resets; on failure the handler alerts and changes nothing. -/
def handleUpdateUser (s : UserScreen) (updated : User) (ok : Bool) :
    UserSubmitResult :=
  match s.editingUser with
  | none => { state := s }
  | some u =>
    if u._id.isEmpty then { state := s }
    else if ok then
      { state :=
          { s with
            users := s.users.map (fun x => if x._id = u._id then updated else x)
            editingUser := none
            formState := {}
            showAddForm := false } }
    else { state := s, alerted := true }

/-- handleDeleteUser embeds handleDelete of the users screen: nothing without
confirmation; on success the list is filtered by id, on failure it is left
unchanged. -/
def handleDeleteUser (users : List User) (id : String) (confirmed ok : Bool) :
    List User :=
  if confirmed then
    if ok then users.filter (fun u => u._id != id) else users
  else users

/-- ProductDoc is a stored product document as the products screen's GROQ
query projects it (the `SanityProduct` interface); the reference resolution
`"imageUrl": image.asset->url` is abstracted by storing the resolved URL on
the document. -/
structure ProductDoc where
  _id : String
  description : String
  stockLevel : Nat
  discountPercentage : Nat
  isFeaturedProduct : Bool
  name : String
  price : String
  category : String
  imageUrl : String
deriving DecidableEq

/-- ImageAsset is the `image.asset` wrapper of the local `Product` shape; the
mapped data always populates exactly the `url`. -/
structure ImageAsset where
  url : String
deriving DecidableEq

/-- Product mirrors the `Product` interface of the products screen (the local
display shape). -/
structure Product where
  _id : String
  name : String
  image : ImageAsset
  price : String
  description : String
  discountPercentage : Nat
  isFeaturedProduct : Bool
  stockLevel : Nat
  category : String
deriving DecidableEq

/-- mapProductDoc is the view-model mapping inside fetchProducts. -/
def mapProductDoc (d : ProductDoc) : Product :=
  { _id := d._id, name := d.name, image := { url := d.imageUrl }
    price := d.price, description := d.description
    discountPercentage := d.discountPercentage
    isFeaturedProduct := d.isFeaturedProduct
    stockLevel := d.stockLevel, category := d.category }

/-- fetchProducts replaces the local list with the mapped query result. -/
def fetchProducts (backend : List ProductDoc) : List Product :=
  backend.map mapProductDoc

/-- ProductInput mirrors `ProductInput`, the products form buffer; the
`image` field holds only the uploaded asset reference
(`image: { asset: { _ref } }`), flattened here to `imageRef`. -/
structure ProductInput where
  _id : Option String := none
  name : Option String := none
  imageRef : Option String := none
  price : Option String := none
  description : Option String := none
  discountPercentage : Option Nat := none
  isFeaturedProduct : Option Bool := none
  stockLevel : Option Nat := none
  category : Option String := none
deriving DecidableEq

/-- ProductCreatePayload is the argument of `client.create` in the products
screen's handleAddNew: the spread form buffer with `_type: "product"` and
`category` defaulted by `formState.category || "Chair"`.  A buffer field that
is absent stays absent on the payload (`Option`). -/
structure ProductCreatePayload where
  _type : String
  _id : Option String
  name : Option String
  imageRef : Option String
  price : Option String
  description : Option String
  discountPercentage : Option Nat
  isFeaturedProduct : Option Bool
  stockLevel : Option Nat
  category : String
deriving DecidableEq

/-- mkProductCreatePayload spreads the buffer into the create payload. -/
def mkProductCreatePayload (f : ProductInput) : ProductCreatePayload :=
  { _type := "product", _id := f._id, name := f.name, imageRef := f.imageRef
    price := f.price, description := f.description
    discountPercentage := f.discountPercentage
    isFeaturedProduct := f.isFeaturedProduct, stockLevel := f.stockLevel
    category := orEmptyDefault f.category "Chair" }

/-- createdProductDoc is the document stored (and returned) by
`client.create` for that payload: the payload plus the generated `_id`.
Optional fields the payload does not carry are modelled by empty defaults, and
the stored asset reference resolves to an empty URL placeholder; no claim
reads those values. -/
def createdProductDoc (newId : String) (p : ProductCreatePayload) :
    ProductDoc :=
  { _id := newId, description := p.description.getD ""
    stockLevel := p.stockLevel.getD 0
    discountPercentage := p.discountPercentage.getD 0
    isFeaturedProduct := p.isFeaturedProduct.getD false
    name := p.name.getD "", price := p.price.getD ""
    category := p.category, imageUrl := "" }

/-- mappedCreatedProduct is `mappedNewProduct` in the products handleAddNew:
the created document recast into the display shape through the source's
non-null assertions (modelled by `Option.getD`), with the image URL taken from
the local `imagePreview` (`imagePreview || ""`). -/
def mappedCreatedProduct (newId : String) (p : ProductCreatePayload)
    (imagePreview : String) : Product :=
  { _id := newId, name := p.name.getD "", image := { url := imagePreview }
    price := p.price.getD "", description := p.description.getD ""
    discountPercentage := p.discountPercentage.getD 0
    isFeaturedProduct := p.isFeaturedProduct.getD false
    stockLevel := p.stockLevel.getD 0, category := p.category }

/-- ProductScreen is the state of the products screen together with the
stored documents (`backend`), which its delete handler refetches. -/
structure ProductScreen where
  backend : List ProductDoc
  products : List Product
  editingProduct : Option Product := none
  showAddForm : Bool := false
  formState : ProductInput := {}
  imagePreview : String := ""
deriving DecidableEq

/-- ProductSubmitResult pairs the state after a products-screen submission
with the `client.create` call issued (if any) and whether an alert was
shown. -/
structure ProductSubmitResult where
  state : ProductScreen
  createCall : Option ProductCreatePayload := none
  alerted : Bool := false
deriving DecidableEq

/-- handleAddNewProduct embeds handleAddNew of the products screen.  Unlike
the users screen this handler performs no client-side validation: it
immediately calls `client.create` with the spread form buffer, whatever the
buffer holds.  On success the created document is stored, its recast
(`mappedNewProduct`) is appended to the local list and handleCancel resets the
form; on failure the handler alerts and mutates nothing. -/
def handleAddNewProduct (s : ProductScreen) (newId : String) (ok : Bool) :
    ProductSubmitResult :=
  let payload := mkProductCreatePayload s.formState
  if ok then
    { state :=
        { s with
          backend := s.backend ++ [createdProductDoc newId payload]
          products :=
            s.products ++ [mappedCreatedProduct newId payload s.imagePreview]
          editingProduct := none
          showAddForm := false
          formState := {}
          imagePreview := "" }
      createCall := some payload }
  else
    { state := s, createCall := some payload, alerted := true }

/-- handleDeleteProduct embeds handleDelete of the products screen: after a
confirmed, successful backend delete the handler does not filter the local
list but calls fetchProducts(), whose own try/catch replaces the list with the
refetched backend contents on success (`fetchOk`) and leaves the previous list
displayed on failure. -/
def handleDeleteProduct (s : ProductScreen) (id : String)
    (confirmed ok fetchOk : Bool) : ProductScreen :=
  if confirmed then
    if ok then
      let backendAfter := s.backend.filter (fun d => d._id != id)
      { s with
        backend := backendAfter
        products := if fetchOk then fetchProducts backendAfter else s.products }
    else s
  else s

/-- isJsWs covers the whitespace JS `String.prototype.trim` strips, restricted
to the characters that occur in the text fields at issue (space, tab, line
feed, carriage return). -/
def isJsWs (c : Char) : Bool :=
  c = ' ' || c = '\t' || c = '\n' || c = '\r'

/-- trimCharList drops leading and trailing whitespace of a character list. -/
def trimCharList (l : List Char) : List Char :=
  ((l.dropWhile isJsWs).reverse.dropWhile isJsWs).reverse

/-- jsTrim models JS `String.prototype.trim`. -/
def jsTrim (s : String) : String :=
  String.mk (trimCharList s.data)

/-- splitCommaAux walks the characters of the string, accumulating the
current piece in reverse; every comma closes a piece. -/
def splitCommaAux : List Char → List Char → List String
  | [], acc => [String.mk acc.reverse]
  | c :: cs, acc =>
    if c = ',' then String.mk acc.reverse :: splitCommaAux cs []
    else splitCommaAux cs (c :: acc)

/-- splitComma models JS `s.split(",")`. -/
def splitComma (s : String) : List String :=
  splitCommaAux s.data []

/-- jsJoin models JS `Array.prototype.join(sep)`. -/
def jsJoin (sep : String) : List String → String
  | [] => ""
  | [x] => x
  | x :: xs => x ++ sep ++ jsJoin sep xs

/-- splitTrimmedCartItems is the conversion both order submission handlers
apply to the buffer's text field:
`formState.cartItems ? formState.cartItems.split(",").map((id) => id.trim()) : []` —
an absent or empty field gives the empty array. -/
def splitTrimmedCartItems : Option String → List String
  | none => []
  | some s => if s.isEmpty then [] else (splitComma s).map jsTrim

/-- OrderProduct is the product reference of a cart line item as the orders
query resolves it (`product->{ _id, name, "imageUrl": image.asset->url }`). -/
structure OrderProduct where
  _id : String
  name : String
  imageUrl : String
deriving DecidableEq

/-- CartItem is one structured line item of an order. -/
structure CartItem where
  quantity : Nat
  product : OrderProduct
deriving DecidableEq

/-- CartItemsVal is the `cartItems` attribute of a stored order document.
The store is schemaless: a placed order holds structured line items, while
the edit form's update patch overwrites the attribute with a plain array of
product-id strings. -/
inductive CartItemsVal where
  | items (l : List CartItem)
  | refs (l : List String)
deriving DecidableEq

/-- OrderDoc mirrors the `Order` interface of the orders screen; the same
shape serves as the stored document and the local record.  `amount` is kept
as a natural number (no claim performs arithmetic on it) and `createdAt` as
the raw ISO string. -/
structure OrderDoc where
  _id : String
  fullName : String
  email : String
  phone : String
  address : String
  city : String
  postalCode : String
  country : String
  paymentMethod : String
  paymentStatus : String
  amount : Nat
  createdAt : String
  status : String
  cartItems : CartItemsVal
deriving DecidableEq

/-- OrderInput mirrors `OrderInput`, the orders form buffer: every field
optional, `cartItems` held as a comma-separated text of product ids. -/
structure OrderInput where
  _id : Option String := none
  fullName : Option String := none
  email : Option String := none
  phone : Option String := none
  address : Option String := none
  city : Option String := none
  postalCode : Option String := none
  country : Option String := none
  paymentMethod : Option String := none
  paymentStatus : Option String := none
  amount : Option Nat := none
  createdAt : Option String := none
  status : Option String := none
  cartItems : Option String := none
deriving DecidableEq

/-- orderEditBuffer is the buffer handleEditClick builds from the clicked
order: every scalar field copied (including `status`), and `cartItems` turned
into the text `order.cartItems.map((item) => item.product._id).join(", ")`.
On an order whose `cartItems` were already overwritten with id strings by an
earlier edit, the member access `item.product._id` throws, so no buffer is
produced. -/
def orderEditBuffer (o : OrderDoc) : Option OrderInput :=
  match o.cartItems with
  | .refs _ => none
  | .items l =>
    some
      { _id := some o._id, fullName := some o.fullName, email := some o.email
        phone := some o.phone, address := some o.address, city := some o.city
        postalCode := some o.postalCode, country := some o.country
        paymentMethod := some o.paymentMethod
        paymentStatus := some o.paymentStatus
        amount := some o.amount, createdAt := some o.createdAt
        status := some o.status
        cartItems := some (jsJoin ", " (l.map (fun it => it.product._id))) }

/-- patchOrderDoc is the backend's patch-and-commit of
`updateData = { ...formState, cartItems: cartItemsArray }` against the stored
document: every buffer field that is present overwrites the stored attribute
(`_id` cannot be modified), and `cartItems` is always overwritten with the
split, trimmed id array. -/
def patchOrderDoc (d : OrderDoc) (f : OrderInput) : OrderDoc :=
  { _id := d._id
    fullName := f.fullName.getD d.fullName
    email := f.email.getD d.email
    phone := f.phone.getD d.phone
    address := f.address.getD d.address
    city := f.city.getD d.city
    postalCode := f.postalCode.getD d.postalCode
    country := f.country.getD d.country
    paymentMethod := f.paymentMethod.getD d.paymentMethod
    paymentStatus := f.paymentStatus.getD d.paymentStatus
    amount := f.amount.getD d.amount
    createdAt := f.createdAt.getD d.createdAt
    status := f.status.getD d.status
    cartItems := .refs (splitTrimmedCartItems f.cartItems) }

/-- createdOrderDoc is the document `client.create` stores for
`{ _type: "order", ...formState, status: "pending", cartItems: cartItemsArray,
createdAt }`: `status` is always "pending", `createdAt` falls back to the
current time when the buffer field is falsy, `cartItems` is the split,
trimmed id array, and absent buffer fields are modelled by empty defaults (no
claim reads them). -/
def createdOrderDoc (newId nowIso : String) (f : OrderInput) : OrderDoc :=
  { _id := newId
    fullName := f.fullName.getD ""
    email := f.email.getD ""
    phone := f.phone.getD ""
    address := f.address.getD ""
    city := f.city.getD ""
    postalCode := f.postalCode.getD ""
    country := f.country.getD ""
    paymentMethod := f.paymentMethod.getD ""
    paymentStatus := f.paymentStatus.getD ""
    amount := f.amount.getD 0
    createdAt := orEmptyDefault f.createdAt nowIso
    status := "pending"
    cartItems := .refs (splitTrimmedCartItems f.cartItems) }

/-- OrderScreen is the state of the orders screen: the stored documents,
the local list and the form/editor state. -/
structure OrderScreen where
  backend : List OrderDoc
  orders : List OrderDoc
  editingOrder : Option OrderDoc := none
  showAddForm : Bool := false
  formState : OrderInput := {}
deriving DecidableEq

/-- OrderFieldUpd enumerates the inputs of the orders form; handleFormChange
writes the changed input's `name` into the buffer.  The form exposes no input
named `status` and none named `_id`, so those buffer fields can only ever be
written by handleEditClick. -/
inductive OrderFieldUpd where
  | fullName (v : String)
  | email (v : String)
  | phone (v : String)
  | address (v : String)
  | city (v : String)
  | postalCode (v : String)
  | country (v : String)
  | paymentMethod (v : String)
  | paymentStatus (v : String)
  | amount (v : Nat)
  | createdAt (v : String)
  | cartItems (v : String)

/-- applyOrderFieldUpd is handleFormChange: `{ ...prev, [name]: value }`. -/
def applyOrderFieldUpd (f : OrderInput) : OrderFieldUpd → OrderInput
  | .fullName v => { f with fullName := some v }
  | .email v => { f with email := some v }
  | .phone v => { f with phone := some v }
  | .address v => { f with address := some v }
  | .city v => { f with city := some v }
  | .postalCode v => { f with postalCode := some v }
  | .country v => { f with country := some v }
  | .paymentMethod v => { f with paymentMethod := some v }
  | .paymentStatus v => { f with paymentStatus := some v }
  | .amount v => { f with amount := some v }
  | .createdAt v => { f with createdAt := some v }
  | .cartItems v => { f with cartItems := some v }

/-- handleComplete embeds the orders screen's handleComplete: the backend
document is patched to `{ status: "completed" }` and on success the local
list maps the matching order to a completed copy; on failure nothing
changes. -/
def handleComplete (s : OrderScreen) (id : String) (ok : Bool) : OrderScreen :=
  if ok then
    { s with
      backend := s.backend.map
        (fun o => if o._id = id then { o with status := "completed" } else o)
      orders := s.orders.map
        (fun o => if o._id = id then { o with status := "completed" } else o) }
  else s

/-- handleDeleteOrder embeds handleDelete of the orders screen. -/
def handleDeleteOrder (s : OrderScreen) (id : String) (confirmed ok : Bool) :
    OrderScreen :=
  if confirmed then
    if ok then
      { s with
        backend := s.backend.filter (fun o => o._id != id)
        orders := s.orders.filter (fun o => o._id != id) }
    else s
  else s

/-- handleEditClickOrder embeds a click on an order card: the clicked order
(looked up in the local list) becomes the editing target —
`setEditingOrder(order)` always runs — and then the buffer is built; if
building it throws (see orderEditBuffer) the subsequent `setFormState` and
`setShowAddForm(false)` never execute, leaving the previous buffer behind. -/
def handleEditClickOrder (s : OrderScreen) (id : String) : OrderScreen :=
  match s.orders.find? (fun o => o._id == id) with
  | none => s
  | some o =>
    match orderEditBuffer o with
    | some b => { s with editingOrder := some o, formState := b, showAddForm := false }
    | none => { s with editingOrder := some o }

/-- handleCancelOrder resets the form/editor surface. -/
def handleCancelOrder (s : OrderScreen) : OrderScreen :=
  { s with editingOrder := none, showAddForm := false, formState := {} }

/-- handleOpenAddOrder is the Add New Order button: the creating state with a
fresh empty buffer. -/
def handleOpenAddOrder (s : OrderScreen) : OrderScreen :=
  { s with showAddForm := true, editingOrder := none, formState := {} }

/-- handleUpdateOrder embeds handleUpdate of the orders screen: with an
editing target whose id is truthy, the buffer (with `cartItems` split and
trimmed) is patched into the stored document carrying that id; the backend
returns the patched full document, which replaces every matching local
record, and the form is cancelled.  If the patch fails — including when no
stored document has the id — the handler alerts and changes nothing. -/
def handleUpdateOrder (s : OrderScreen) (ok : Bool) : OrderScreen :=
  match s.editingOrder with
  | none => s
  | some o =>
    if o._id.isEmpty then s
    else
      match s.backend.find? (fun d => d._id == o._id) with
      | none => s
      | some d =>
        if ok then
          handleCancelOrder
            { s with
              backend := s.backend.map
                (fun x => if x._id = o._id then patchOrderDoc x s.formState else x)
              orders := s.orders.map
                (fun x => if x._id = o._id then patchOrderDoc d s.formState else x) }
        else s

/-- handleAddNewOrder embeds handleAddNew of the orders screen: the new
pending document is created, then `await fetchOrders()` — which has its own
try/catch, so a failed refetch only skips the list replacement — and then
handleCancel.  A failed create alerts and changes nothing. -/
def handleAddNewOrder (s : OrderScreen) (newId nowIso : String)
    (ok fetchOk : Bool) : OrderScreen :=
  if ok then
    let backendAfter := s.backend ++ [createdOrderDoc newId nowIso s.formState]
    handleCancelOrder
      { s with
        backend := backendAfter
        orders := if fetchOk then backendAfter else s.orders }
  else s

/-- OrderOp is an operation available through the exposed interface of the
orders screen. -/
inductive OrderOp where
  | completeOp (id : String) (ok : Bool)
  | deleteOp (id : String) (confirmed : Bool) (ok : Bool)
  | editClickOp (id : String)
  | formChangeOp (u : OrderFieldUpd)
  | openAddOp
  | cancelOp
  | submitUpdateOp (ok : Bool)
  | submitAddOp (newId : String) (nowIso : String) (ok : Bool) (fetchOk : Bool)

/-- applyOrderOp dispatches one exposed orders-screen operation. -/
def applyOrderOp (s : OrderScreen) : OrderOp → OrderScreen
  | .completeOp id ok => handleComplete s id ok
  | .deleteOp id confirmed ok => handleDeleteOrder s id confirmed ok
  | .editClickOp id => handleEditClickOrder s id
  | .formChangeOp u => { s with formState := applyOrderFieldUpd s.formState u }
  | .openAddOp => handleOpenAddOrder s
  | .cancelOp => handleCancelOrder s
  | .submitUpdateOp ok => handleUpdateOrder s ok
  | .submitAddOp newId nowIso ok fetchOk => handleAddNewOrder s newId nowIso ok fetchOk

/-- loadOrders is the mount-time fetch: the stored documents (with product
references resolved) become the local list. -/
def loadOrders (docs : List OrderDoc) : OrderScreen :=
  { backend := docs, orders := docs }

/-- reachOrders is the screen state after a load of `docs` followed by the
given sequence of exposed operations. -/
def reachOrders (docs : List OrderDoc) (ops : List OrderOp) : OrderScreen :=
  ops.foldl applyOrderOp (loadOrders docs)

/-- statusOf reads the status of the (first) document with the given id. -/
def statusOf (l : List OrderDoc) (id : String) : Option String :=
  (l.find? (fun o => o._id == id)).map (fun o => o.status)

/-- notSubmitUpdate holds for every exposed orders operation except
submitting the edit form. -/
def notSubmitUpdate : OrderOp → Prop
  | .submitUpdateOp _ => False
  | _ => True

lemma pairwise_of_mem_rel {α : Type} {R : α → α → Prop} :
    ∀ {l : List α}, (∀ a ∈ l, ∀ b ∈ l, R a b) → l.Pairwise R
  | [], _ => List.Pairwise.nil
  | a :: l, h =>
    List.Pairwise.cons
      (fun b hb => h a (List.mem_cons_self a l) b (List.mem_cons_of_mem a hb))
      (pairwise_of_mem_rel fun x hx y hy =>
        h x (List.mem_cons_of_mem a hx) y (List.mem_cons_of_mem a hy))

lemma mem_pinned_pinned {msgs : List Message} {a : Message}
    (ha : a ∈ pinnedMessages msgs) : a.pinned = true := by
  unfold pinnedMessages at ha
  simpa using (List.mem_filter.mp ha).2

lemma mem_unpinned_unpinned {msgs : List Message} {b : Message}
    (hb : b ∈ unpinnedMessages msgs) : b.pinned = false := by
  unfold unpinnedMessages at hb
  simpa using (List.mem_filter.mp hb).2

lemma render_pinnedBeforeUnpinned (msgs : List Message) :
    pinnedBeforeUnpinned (renderedMessages msgs) := by
  unfold pinnedBeforeUnpinned renderedMessages
  rw [List.pairwise_append]
  refine ⟨pairwise_of_mem_rel ?_, pairwise_of_mem_rel ?_, ?_⟩
  · intro a ha b _ _
    exact mem_pinned_pinned ha
  · intro a _ b hb hbp
    rw [mem_unpinned_unpinned hb] at hbp
    exact absurd hbp (by simp)
  · intro a ha b _ _
    exact mem_pinned_pinned ha

lemma render_displayOrdered {msgs : List Message} (h : displayOrdered msgs) :
    displayOrdered (renderedMessages msgs) := by
  unfold displayOrdered at h
  unfold displayOrdered renderedMessages
  rw [List.pairwise_append]
  refine ⟨h.sublist (List.filter_sublist msgs), h.sublist (List.filter_sublist msgs), ?_⟩
  intro a ha b hb
  exact Or.inl ⟨mem_pinned_pinned ha, mem_unpinned_unpinned hb⟩

lemma fetch_displayOrdered (docs : List Message) :
    displayOrdered (fetchMessages docs) :=
  List.sorted_insertionSort msgRel docs

lemma deletes_preserve_displayOrdered :
    ∀ (ops : List MsgOp) (l : List Message), displayOrdered l →
      (∀ op ∈ ops, isDeleteOp op) → displayOrdered (ops.foldl applyMsgOp l)
  | [], l, h, _ => h
  | op :: ops, l, h, hops => by
    have hop := hops op (List.mem_cons_self op ops)
    have htail : ∀ o ∈ ops, isDeleteOp o := fun o ho =>
      hops o (List.mem_cons_of_mem op ho)
    cases op with
    | togglePinOp id cur ok => exact absurd hop not_false
    | deleteOp id confirmed ok =>
      refine deletes_preserve_displayOrdered ops _ ?_ htail
      show displayOrdered (handleDeleteMessage l id confirmed ok)
      unfold displayOrdered at h
      unfold displayOrdered handleDeleteMessage
      split
      · split
        · exact h.sublist (List.filter_sublist l)
        · exact h
      · exact h

/-- C2 (counterexample): the claimed display-ordering invariant fails on the
code.  Load two messages — `m1` pinned with timestamp 1 and `m2` unpinned
with timestamp 2 (the backend returns them in that order) — then toggle the
pin of `m2` with a successful patch.  Both messages are now pinned, but the
pinned section renders `m1` (older) above `m2` (newer): the render only
partitions by the flag, it never re-sorts by creation timestamp. -/
theorem messages_display_order_counterexample :
    ¬ displayOrdered (renderedMessages (reachMessages
      [{ _id := "m1", name := "", email := "", message := "", createdAt := 1,
         pinned := true },
       { _id := "m2", name := "", email := "", message := "", createdAt := 2,
         pinned := false }]
      [.togglePinOp "m2" false true])) := by
  decide

/-- C2 (amended): pinned messages render before unpinned ones in every state
of the messages screen; the full display ordering — pinned first and, within
each group, newest first — holds after a load and is preserved by any
sequence of delete operations, but it is not preserved by pin toggles. -/
theorem messages_render_order :
    (∀ msgs : List Message, pinnedBeforeUnpinned (renderedMessages msgs)) ∧
    (∀ docs : List Message,
      displayOrdered (renderedMessages (fetchMessages docs))) ∧
    (∀ (docs : List Message) (ops : List MsgOp), (∀ op ∈ ops, isDeleteOp op) →
      displayOrdered (renderedMessages (reachMessages docs ops))) := by
  refine ⟨render_pinnedBeforeUnpinned, ?_, ?_⟩
  · intro docs
    exact render_displayOrdered (fetch_displayOrdered docs)
  · intro docs ops hops
    exact render_displayOrdered
      (deletes_preserve_displayOrdered ops _ (fetch_displayOrdered docs) hops)

/-- Witness for the amended C2 theorem at a concrete load followed by one
confirmed successful delete. -/
theorem messages_render_order_witness :
    displayOrdered (renderedMessages (reachMessages
      [{ _id := "m1", name := "", email := "", message := "", createdAt := 1,
         pinned := true },
       { _id := "m2", name := "", email := "", message := "", createdAt := 2,
         pinned := false }]
      [.deleteOp "m1" true true])) :=
  messages_render_order.2.2 _ _ (by
    intro op hop
    rcases List.mem_singleton.mp hop with rfl
    trivial)

/-- C7: a successful togglePin acts pointwise on the local list: the length
is unchanged, and at every position the message whose `_id` matches gets
exactly its `pinned` flag replaced by the value the backend patch returned
(the negation of the `currentPinned` argument), while every other message —
and every other field of the matching one — is unchanged. -/
theorem togglePin_frame (msgs : List Message) (id : String) (cur : Bool) :
    (togglePin msgs id cur true).length = msgs.length ∧
    ∀ i : Nat, (togglePin msgs id cur true)[i]? =
      (msgs[i]?).map
        (fun m => if m._id = id then { m with pinned := !cur } else m) := by
  constructor
  · simp [togglePin]
  · intro i
    simp [togglePin]

/-- C1 (counterexample): submitting the add-product form with an empty
buffer — no name and no stock level — is not rejected by the product create
handler: with the backend reachable the handler issues the create call and
shows no alert. -/
theorem product_create_no_validation_counterexample :
    (handleAddNewProduct { backend := [], products := [] } "p1" true).createCall ≠
      none ∧
    (handleAddNewProduct { backend := [], products := [] } "p1" true).alerted =
      false := by
  decide

/-- C1 (amended): the users screen validates client-side exactly as claimed —
a buffer with an absent or empty required field is rejected with a blocking
alert, no create call and no state change — but the products screen does not:
its create handler issues the backend call for every buffer, including one
with an empty name or stock level, and alerts only when that call fails.
An empty product name is only ever blocked by the HTML `required` attribute
of the input, outside the handler, and an untouched stock level (the input
displays 0) is not blocked at all. -/
theorem create_validation :
    (∀ (s : UserScreen) (newId : String) (ok : Bool),
      userFormInvalid s.formState = true →
      (handleAddNewUser s newId ok).createCall = none ∧
      (handleAddNewUser s newId ok).alerted = true ∧
      (handleAddNewUser s newId ok).state = s) ∧
    (∀ (s : ProductScreen) (newId : String) (ok : Bool),
      (handleAddNewProduct s newId ok).createCall =
        some (mkProductCreatePayload s.formState) ∧
      (handleAddNewProduct s newId ok).alerted = !ok) := by
  constructor
  · intro s newId ok h
    simp [handleAddNewUser, h]
  · intro s newId ok
    cases ok <;> simp [handleAddNewProduct]

/-- Witness for the amended C1 theorem: the empty user buffer fails
validation, so the submission issues no create call. -/
theorem create_validation_witness :
    (handleAddNewUser { users := [] } "u1" true).createCall = none :=
  ((create_validation.1 { users := [] } "u1" true (by decide)).1)

/-- C3 (counterexample): on the products screen a confirmed delete whose
backend call succeeds does not always leave the local list without the
record: the handler refetches instead of filtering by id, and when that
refetch fails the stale record is still displayed. -/
theorem product_delete_stale_counterexample :
    ((handleDeleteProduct
      { backend := [{ _id := "p1", description := "", stockLevel := 0,
                      discountPercentage := 0, isFeaturedProduct := false,
                      name := "chair", price := "10", category := "Chair",
                      imageUrl := "" }]
        products := fetchProducts
          [{ _id := "p1", description := "", stockLevel := 0,
             discountPercentage := 0, isFeaturedProduct := false,
             name := "chair", price := "10", category := "Chair",
             imageUrl := "" }] }
      "p1" true true false).products.map (fun p => p._id)) = ["p1"] := by
  decide

/-- C3 (amended): on the messages, users and orders screens a confirmed,
successful delete leaves no record with the id in the local list, while a
failed or unconfirmed delete leaves the list exactly as before.  On the
products screen the successful delete refetches: the record is gone provided
the refetch succeeds, a failed refetch leaves the previous (stale) list
displayed, and a failed or unconfirmed delete changes nothing. -/
theorem delete_reconciliation :
    (∀ (msgs : List Message) (id : String),
      (∀ m ∈ handleDeleteMessage msgs id true true, m._id ≠ id) ∧
      (∀ ok, handleDeleteMessage msgs id false ok = msgs) ∧
      handleDeleteMessage msgs id true false = msgs) ∧
    (∀ (users : List User) (id : String),
      (∀ u ∈ handleDeleteUser users id true true, u._id ≠ id) ∧
      (∀ ok, handleDeleteUser users id false ok = users) ∧
      handleDeleteUser users id true false = users) ∧
    (∀ (s : OrderScreen) (id : String),
      (∀ o ∈ (handleDeleteOrder s id true true).orders, o._id ≠ id) ∧
      (∀ ok, handleDeleteOrder s id false ok = s) ∧
      handleDeleteOrder s id true false = s) ∧
    (∀ (s : ProductScreen) (id : String),
      (∀ p ∈ (handleDeleteProduct s id true true true).products, p._id ≠ id) ∧
      (∀ ok fetchOk, handleDeleteProduct s id false ok fetchOk = s) ∧
      (∀ fetchOk, handleDeleteProduct s id true false fetchOk = s)) := by
  refine ⟨fun msgs id => ⟨?_, fun ok => rfl, rfl⟩,
          fun users id => ⟨?_, fun ok => rfl, rfl⟩,
          fun s id => ⟨?_, fun ok => rfl, rfl⟩,
          fun s id => ⟨?_, fun ok fetchOk => rfl, fun fetchOk => rfl⟩⟩
  · intro m hm
    simp [handleDeleteMessage, List.mem_filter] at hm
    exact hm.2
  · intro u hu
    simp [handleDeleteUser, List.mem_filter] at hu
    exact hu.2
  · intro o ho
    simp [handleDeleteOrder, List.mem_filter] at ho
    exact ho.2
  · intro p hp
    simp [handleDeleteProduct, fetchProducts, List.mem_filter] at hp
    obtain ⟨d, ⟨_, hd⟩, rfl⟩ := hp
    simpa [mapProductDoc] using hd

/-- Witness for the amended C3 theorem: a failed confirmed delete on the
messages screen leaves the one-element list unchanged. -/
theorem delete_reconciliation_witness :
    handleDeleteMessage
      [{ _id := "m1", name := "", email := "", message := "", createdAt := 1,
         pinned := true }] "m1" true false =
      [{ _id := "m1", name := "", email := "", message := "", createdAt := 1,
         pinned := true }] :=
  (delete_reconciliation.1
    [{ _id := "m1", name := "", email := "", message := "", createdAt := 1,
       pinned := true }] "m1").2.2

/-- C5: on the users and orders screens a successful update replaces, at
every position of the local list, exactly the record whose id matches the
editing target by the full document the backend returned from the patch
(`updated` for users, the patched stored document for orders), leaving every
other record unchanged; a failed update leaves the state entirely
unchanged. -/
theorem update_reconciliation :
    (∀ (s : UserScreen) (u updated : User),
      s.editingUser = some u → u._id.isEmpty = false →
      (∀ i : Nat, ((handleUpdateUser s updated true).state.users)[i]? =
        (s.users[i]?).map (fun x => if x._id = u._id then updated else x)) ∧
      (handleUpdateUser s updated false).state = s) ∧
    (∀ (s : OrderScreen) (o d : OrderDoc),
      s.editingOrder = some o → o._id.isEmpty = false →
      s.backend.find? (fun x => x._id == o._id) = some d →
      (∀ i : Nat, ((handleUpdateOrder s true).orders)[i]? =
        (s.orders[i]?).map
          (fun x => if x._id = o._id then patchOrderDoc d s.formState else x)) ∧
      handleUpdateOrder s false = s) := by
  constructor
  · intro s u updated hu hid
    refine ⟨fun i => ?_, ?_⟩ <;> simp [handleUpdateUser, hu, hid]
  · intro s o d ho hid hfind
    refine ⟨fun i => ?_, ?_⟩ <;>
      simp [handleUpdateOrder, ho, hid, hfind, handleCancelOrder]

/-- Witness for C5 on concrete one-element screens: the matching user is
replaced by the backend's returned document and a failed order update is a
no-op. -/
theorem update_reconciliation_witness :
    (((handleUpdateUser
      { users := [{ _id := "u1", name := "a", email := "e", mobileNumber := "m",
                    password := "p",
                    address := { street := "s", city := "c", state := "st",
                                 country := "co", postalCode := "z" },
                    isVerified := false, role := "user" }]
        editingUser := some
          { _id := "u1", name := "a", email := "e", mobileNumber := "m",
            password := "p",
            address := { street := "s", city := "c", state := "st",
                         country := "co", postalCode := "z" },
            isVerified := false, role := "user" } }
      { _id := "u1", name := "b", email := "e", mobileNumber := "m",
        password := "p",
        address := { street := "s", city := "c", state := "st",
                     country := "co", postalCode := "z" },
        isVerified := true, role := "admin" }
      true).state.users)[0]?).map (fun x => x.name) = some "b" := by
  have h := (update_reconciliation.1
    { users := [{ _id := "u1", name := "a", email := "e", mobileNumber := "m",
                  password := "p",
                  address := { street := "s", city := "c", state := "st",
                               country := "co", postalCode := "z" },
                  isVerified := false, role := "user" }]
      editingUser := some
        { _id := "u1", name := "a", email := "e", mobileNumber := "m",
          password := "p",
          address := { street := "s", city := "c", state := "st",
                       country := "co", postalCode := "z" },
          isVerified := false, role := "user" } }
    { _id := "u1", name := "a", email := "e", mobileNumber := "m",
      password := "p",
      address := { street := "s", city := "c", state := "st",
                   country := "co", postalCode := "z" },
      isVerified := false, role := "user" }
    { _id := "u1", name := "b", email := "e", mobileNumber := "m",
      password := "p",
      address := { street := "s", city := "c", state := "st",
                   country := "co", postalCode := "z" },
      isVerified := true, role := "admin" }
    rfl (by decide)).1 0
  rw [h]
  decide

/-- C6: when a create succeeds on a local list that does not already hold the
backend-assigned id, the new record occurs exactly once in the list
afterwards, and the single occurrence is the document built around the id the
backend assigned (users and products screens; a valid buffer on the users
screen, whose handler validates before creating). -/
theorem create_appends_once :
    (∀ (s : UserScreen) (newId : String),
      userFormInvalid s.formState = false →
      (∀ u ∈ s.users, u._id ≠ newId) →
      (handleAddNewUser s newId true).state.users.countP
          (fun u => u._id == newId) = 1 ∧
      (handleAddNewUser s newId true).state.users.filter
          (fun u => u._id == newId) =
        [createdUser newId (mkNewUserDocument s.formState)]) ∧
    (∀ (s : ProductScreen) (newId : String),
      (∀ p ∈ s.products, p._id ≠ newId) →
      (handleAddNewProduct s newId true).state.products.countP
          (fun p => p._id == newId) = 1 ∧
      (handleAddNewProduct s newId true).state.products.filter
          (fun p => p._id == newId) =
        [mappedCreatedProduct newId (mkProductCreatePayload s.formState)
          s.imagePreview]) := by
  constructor
  · intro s newId hvalid hfresh
    constructor
    · simp [handleAddNewUser, hvalid, List.countP_append, createdUser]
      intro u hu
      simpa using hfresh u hu
    · simp [handleAddNewUser, hvalid, List.filter_append, createdUser]
      intro u hu
      simpa using hfresh u hu
  · intro s newId hfresh
    constructor
    · simp [handleAddNewProduct, List.countP_append, mappedCreatedProduct]
      intro p hp
      simpa using hfresh p hp
    · simp [handleAddNewProduct, List.filter_append, mappedCreatedProduct]
      intro p hp
      simpa using hfresh p hp

/-- Witness for C6 on an empty products screen: the create appends exactly
one record with the backend id. -/
theorem create_appends_once_witness :
    (handleAddNewProduct { backend := [], products := [] }
        "p9" true).state.products.countP (fun p => p._id == "p9") = 1 :=
  (create_appends_once.2 { backend := [], products := [] } "p9"
    (by intro p hp; simp at hp)).1

/-- C8: the form/editor surface closes only on backend success.  A failed
create or patch leaves the whole screen state — open form, editing target and
buffer — unchanged (on the users screen a validation failure likewise), and a
successful one closes the form and resets the buffer to empty defaults
(users update, users create, orders create, as cited by the claim). -/
theorem form_closes_only_on_success :
    (∀ (s : UserScreen) (u updated : User),
      s.editingUser = some u → u._id.isEmpty = false →
      ((handleUpdateUser s updated true).state.showAddForm = false ∧
       (handleUpdateUser s updated true).state.editingUser = none ∧
       (handleUpdateUser s updated true).state.formState = {}) ∧
      (handleUpdateUser s updated false).state = s) ∧
    (∀ (s : UserScreen) (newId : String),
      (userFormInvalid s.formState = true →
        ∀ ok, (handleAddNewUser s newId ok).state = s) ∧
      (userFormInvalid s.formState = false →
        ((handleAddNewUser s newId true).state.showAddForm = false ∧
         (handleAddNewUser s newId true).state.formState = {}) ∧
        (handleAddNewUser s newId false).state = s)) ∧
    (∀ (s : OrderScreen) (newId nowIso : String) (fetchOk : Bool),
      ((handleAddNewOrder s newId nowIso true fetchOk).editingOrder = none ∧
       (handleAddNewOrder s newId nowIso true fetchOk).showAddForm = false ∧
       (handleAddNewOrder s newId nowIso true fetchOk).formState = {}) ∧
      handleAddNewOrder s newId nowIso false fetchOk = s) := by
  refine ⟨?_, ?_, ?_⟩
  · intro s u updated hu hid
    refine ⟨⟨?_, ?_, ?_⟩, ?_⟩ <;> simp [handleUpdateUser, hu, hid]
  · intro s newId
    constructor
    · intro hbad ok
      simp [handleAddNewUser, hbad]
    · intro hvalid
      refine ⟨⟨?_, ?_⟩, ?_⟩ <;> simp [handleAddNewUser, hvalid]
  · intro s newId nowIso fetchOk
    refine ⟨⟨?_, ?_, ?_⟩, ?_⟩ <;>
      simp [handleAddNewOrder, handleCancelOrder]

/-- Witness for C8: a failed order create leaves a concrete open creating
state untouched. -/
theorem form_closes_only_on_success_witness :
    handleAddNewOrder
      { backend := [], orders := [], showAddForm := true,
        formState := { fullName := some "x" } } "o9" "2025-01-01" false true =
      { backend := [], orders := [], showAddForm := true,
        formState := { fullName := some "x" } } :=
  (form_closes_only_on_success.2.2
    { backend := [], orders := [], showAddForm := true,
      formState := { fullName := some "x" } } "o9" "2025-01-01" true).2

/-- C9: in the user create payload an unspecified verified flag is sent as
false and an explicitly provided one is passed through; an unspecified or
empty role is sent as "user" and a nonempty provided role is passed through;
every other provided field value is passed through unchanged. -/
theorem user_create_defaults (f : UserInput) :
    ((f.isVerified = none → (mkNewUserDocument f).isVerified = false) ∧
     (∀ b, f.isVerified = some b → (mkNewUserDocument f).isVerified = b)) ∧
    (((f.role = none ∨ f.role = some "") →
        (mkNewUserDocument f).role = "user") ∧
     (∀ r, f.role = some r → r ≠ "" → (mkNewUserDocument f).role = r)) ∧
    ((∀ v, f.name = some v → (mkNewUserDocument f).name = v) ∧
     (∀ v, f.email = some v → (mkNewUserDocument f).email = v) ∧
     (∀ v, f.mobileNumber = some v → (mkNewUserDocument f).mobileNumber = v) ∧
     (∀ v, f.password = some v → (mkNewUserDocument f).password = v) ∧
     (∀ v, f.address.street = some v →
        (mkNewUserDocument f).address.street = v) ∧
     (∀ v, f.address.city = some v → (mkNewUserDocument f).address.city = v) ∧
     (∀ v, f.address.state = some v →
        (mkNewUserDocument f).address.state = v) ∧
     (∀ v, f.address.country = some v →
        (mkNewUserDocument f).address.country = v) ∧
     (∀ v, f.address.postalCode = some v →
        (mkNewUserDocument f).address.postalCode = v)) := by
  refine ⟨⟨?_, ?_⟩, ⟨?_, ?_⟩, ?_, ?_, ?_, ?_, ?_, ?_, ?_, ?_, ?_⟩
  · intro h; simp [mkNewUserDocument, h]
  · intro b hb; simp [mkNewUserDocument, hb]
  · intro h
    rcases h with h | h <;> simp [mkNewUserDocument, orEmptyDefault, h] <;>
      decide
  · intro r hr hne
    simp [mkNewUserDocument, orEmptyDefault, hr,
      (String.isEmpty_iff r).not.mpr hne]
  all_goals intro v hv; simp [mkNewUserDocument, hv]

/-- Witness for C9 at a concrete buffer with no verified flag and an empty
role. -/
theorem user_create_defaults_witness :
    (mkNewUserDocument { name := some "n", role := some "" }).isVerified =
      false ∧
    (mkNewUserDocument { name := some "n", role := some "" }).role = "user" :=
  ⟨(user_create_defaults { name := some "n", role := some "" }).1.1 rfl,
   (user_create_defaults { name := some "n", role := some "" }).2.1.1
     (Or.inr rfl)⟩

lemma find?_map_congr {α β : Type} (f : α → β) (p : β → Bool) (q : α → Bool)
    (h : ∀ x, p (f x) = q x) :
    ∀ l : List α, (l.map f).find? p = (l.find? q).map f
  | [] => rfl
  | a :: l => by
    cases hq : q a
    · rw [List.map_cons, List.find?_cons_of_neg _ (by simp [h a, hq]),
        List.find?_cons_of_neg _ (by simp [hq])]
      exact find?_map_congr f p q h l
    · rw [List.map_cons, List.find?_cons_of_pos _ (by simp [h a, hq]),
        List.find?_cons_of_pos _ (by simp [hq])]
      rfl

lemma find?_filter_keep {α : Type} (p q : α → Bool)
    (h : ∀ x, p x = true → q x = true) :
    ∀ l : List α, (l.filter q).find? p = l.find? p
  | [] => rfl
  | a :: l => by
    cases hq : q a
    · have hp : p a = false := by
        cases hpa : p a
        · rfl
        · rw [h a hpa] at hq
          exact absurd hq (by simp)
      rw [List.filter_cons_of_neg (by simp [hq]),
        List.find?_cons_of_neg _ (by simp [hp])]
      exact find?_filter_keep p q h l
    · rw [List.filter_cons_of_pos (by simp [hq])]
      cases hpa : p a
      · rw [List.find?_cons_of_neg _ (by simp [hpa]),
          List.find?_cons_of_neg _ (by simp [hpa])]
        exact find?_filter_keep p q h l
      · rw [List.find?_cons_of_pos _ (by simp [hpa]),
          List.find?_cons_of_pos _ (by simp [hpa])]

lemma statusOf_map_complete_self {l : List OrderDoc} {id : String} {st : String}
    (h : statusOf l id = some st) :
    statusOf
      (l.map (fun o => if o._id = id then { o with status := "completed" } else o))
      id = some "completed" := by
  unfold statusOf at h ⊢
  rw [find?_map_congr _ _ (fun o => o._id == id)
    (fun x => by by_cases hx : x._id = id <;> simp [hx]) l]
  cases hfind : l.find? (fun o => o._id == id) with
  | none => rw [hfind] at h; simp at h
  | some x =>
    rw [hfind] at h
    have hx : x._id = id := by simpa using List.find?_some hfind
    simp [hx]

lemma statusOf_map_completed_pres {l : List OrderDoc} {id : String}
    (f : OrderDoc → OrderDoc) (hid : ∀ x, (f x)._id = x._id)
    (hst : ∀ x, x ∈ l → x._id = id → x.status = "completed" →
      (f x).status = "completed")
    (h : statusOf l id = some "completed") :
    statusOf (l.map f) id = some "completed" := by
  unfold statusOf at h ⊢
  rw [find?_map_congr f _ (fun o => o._id == id) (fun x => by rw [hid x]) l]
  cases hfind : l.find? (fun o => o._id == id) with
  | none => rw [hfind] at h; simp at h
  | some x =>
    rw [hfind] at h
    have hx : x._id = id := by simpa using List.find?_some hfind
    have hmem := List.mem_of_find?_eq_some hfind
    have hxst : x.status = "completed" := by simpa using h
    simp [hst x hmem hx hxst]

lemma statusOf_filter_self {l : List OrderDoc} {id : String} :
    statusOf (l.filter (fun o => o._id != id)) id = none := by
  unfold statusOf
  have hnone :
      (l.filter (fun o => o._id != id)).find? (fun o => o._id == id) = none := by
    rw [List.find?_eq_none]
    intro x hx
    have hne := (List.mem_filter.mp hx).2
    simpa using hne
  rw [hnone]
  rfl

lemma statusOf_filter_other {l : List OrderDoc} {id id2 : String}
    (hne : id ≠ id2) :
    statusOf (l.filter (fun o => o._id != id2)) id = statusOf l id := by
  have hk : ∀ x : OrderDoc, (x._id == id) = true → (x._id != id2) = true := by
    intro x hpx
    have hx : x._id = id := by simpa using hpx
    simp [hx, hne]
  unfold statusOf
  rw [find?_filter_keep _ _ hk l]

lemma statusOf_append_of_some {l₁ l₂ : List OrderDoc} {id : String}
    {st : String} (h : statusOf l₁ id = some st) :
    statusOf (l₁ ++ l₂) id = some st := by
  unfold statusOf at h ⊢
  cases hfind : l₁.find? (fun o => o._id == id) with
  | none => rw [hfind] at h; simp at h
  | some x =>
    rw [hfind] at h
    rw [List.find?_append, hfind]
    simpa using h

/-- C4 (counterexample): the completed state is not one-way through the
exposed interface.  Start from one pending order `o1`, click its card (edit:
the buffer snapshots `status: "pending"`), then press Complete (success: the
order is completed in the store and the list), then submit the still-open
edit form (success): the patch re-sends the stale buffer, whose `status`
field is "pending", and the order's status goes back from completed to
pending. -/
theorem order_status_reverts_counterexample :
    statusOf (reachOrders
      [{ _id := "o1", fullName := "n", email := "", phone := "",
         address := "", city := "", postalCode := "", country := "",
         paymentMethod := "", paymentStatus := "", amount := 0,
         createdAt := "t", status := "pending", cartItems := .items [] }]
      [.editClickOp "o1", .completeOp "o1" true]).orders "o1" =
        some "completed" ∧
    statusOf (reachOrders
      [{ _id := "o1", fullName := "n", email := "", phone := "",
         address := "", city := "", postalCode := "", country := "",
         paymentMethod := "", paymentStatus := "", amount := 0,
         createdAt := "t", status := "pending", cartItems := .items [] }]
      [.editClickOp "o1", .completeOp "o1" true,
       .submitUpdateOp true]).orders "o1" = some "pending" := by
  decide

/-- C4 (amended): marking an order completed sets the status of the matching
local record to "completed" (whatever it was, in particular "pending"), and
every exposed operation other than submitting the edit form leaves an order
completed in the list and the store either completed or deleted; submitting
the edit form also preserves completion whenever the buffer's status
snapshot is absent or "completed" — but when the buffer still holds the
stale snapshot "pending" of an order completed after the edit was opened,
the update reverts it (see the counterexample). -/
theorem order_status_transitions :
    (∀ (s : OrderScreen) (id : String) (st : String),
      statusOf s.orders id = some st →
      statusOf (handleComplete s id true).orders id = some "completed") ∧
    (∀ (s : OrderScreen) (op : OrderOp) (id : String), notSubmitUpdate op →
      statusOf s.orders id = some "completed" →
      statusOf s.backend id = some "completed" →
      ((statusOf (applyOrderOp s op).orders id = some "completed" ∨
        statusOf (applyOrderOp s op).orders id = none) ∧
       (statusOf (applyOrderOp s op).backend id = some "completed" ∨
        statusOf (applyOrderOp s op).backend id = none))) ∧
    (∀ (s : OrderScreen) (ok : Bool) (id : String),
      s.formState.status = none ∨ s.formState.status = some "completed" →
      statusOf s.orders id = some "completed" →
      statusOf s.backend id = some "completed" →
      statusOf (handleUpdateOrder s ok).orders id = some "completed" ∧
      statusOf (handleUpdateOrder s ok).backend id = some "completed") := by
  refine ⟨?_, ?_, ?_⟩
  · intro s id st h
    exact statusOf_map_complete_self h
  · intro s op id hnot ho hb
    cases op with
    | completeOp id2 ok =>
      cases ok
      · exact ⟨Or.inl ho, Or.inl hb⟩
      · constructor
        · exact Or.inl (statusOf_map_completed_pres _
            (fun x => by by_cases hx : x._id = id2 <;> simp [hx])
            (fun x _ _ hxst => by
              by_cases hx : x._id = id2 <;> simp [hx, hxst]) ho)
        · exact Or.inl (statusOf_map_completed_pres _
            (fun x => by by_cases hx : x._id = id2 <;> simp [hx])
            (fun x _ _ hxst => by
              by_cases hx : x._id = id2 <;> simp [hx, hxst]) hb)
    | deleteOp id2 confirmed ok =>
      cases confirmed
      · exact ⟨Or.inl ho, Or.inl hb⟩
      · cases ok
        · exact ⟨Or.inl ho, Or.inl hb⟩
        · by_cases hid : id = id2
          · subst hid
            exact ⟨Or.inr statusOf_filter_self, Or.inr statusOf_filter_self⟩
          · exact ⟨Or.inl ((statusOf_filter_other hid).trans ho),
              Or.inl ((statusOf_filter_other hid).trans hb)⟩
    | editClickOp id2 =>
      have horders : (handleEditClickOrder s id2).orders = s.orders := by
        unfold handleEditClickOrder
        split
        · rfl
        · split <;> rfl
      have hbackend : (handleEditClickOrder s id2).backend = s.backend := by
        unfold handleEditClickOrder
        split
        · rfl
        · split <;> rfl
      exact ⟨Or.inl (by rw [show (applyOrderOp s (.editClickOp id2)) =
          handleEditClickOrder s id2 from rfl, horders]; exact ho),
        Or.inl (by rw [show (applyOrderOp s (.editClickOp id2)) =
          handleEditClickOrder s id2 from rfl, hbackend]; exact hb)⟩
    | formChangeOp u => exact ⟨Or.inl ho, Or.inl hb⟩
    | openAddOp => exact ⟨Or.inl ho, Or.inl hb⟩
    | cancelOp => exact ⟨Or.inl ho, Or.inl hb⟩
    | submitUpdateOp ok => exact hnot.elim
    | submitAddOp newId nowIso ok fetchOk =>
      cases ok
      · exact ⟨Or.inl ho, Or.inl hb⟩
      · have hbApp :
            statusOf (s.backend ++ [createdOrderDoc newId nowIso s.formState])
              id = some "completed" := statusOf_append_of_some hb
        constructor
        · cases fetchOk
          · exact Or.inl ho
          · exact Or.inl hbApp
        · exact Or.inl hbApp
  · intro s ok id hform ho hb
    cases hE : s.editingOrder with
    | none =>
      have hred : handleUpdateOrder s ok = s := by
        unfold handleUpdateOrder; rw [hE]
      rw [hred]; exact ⟨ho, hb⟩
    | some o =>
      cases hoid : o._id.isEmpty with
      | true =>
        have hred : handleUpdateOrder s ok = s := by
          unfold handleUpdateOrder; rw [hE]; simp [hoid]
        rw [hred]; exact ⟨ho, hb⟩
      | false =>
        cases hfind : s.backend.find? (fun d => d._id == o._id) with
        | none =>
          have hred : handleUpdateOrder s ok = s := by
            unfold handleUpdateOrder; rw [hE]; simp [hoid, hfind]
          rw [hred]; exact ⟨ho, hb⟩
        | some d =>
          cases ok with
          | false =>
            have hred : handleUpdateOrder s false = s := by
              unfold handleUpdateOrder; rw [hE]; simp [hoid, hfind]
            rw [hred]; exact ⟨ho, hb⟩
          | true =>
            have hd : d._id = o._id := by simpa using List.find?_some hfind
            have horders : (handleUpdateOrder s true).orders =
                s.orders.map (fun x =>
                  if x._id = o._id then patchOrderDoc d s.formState else x) := by
              unfold handleUpdateOrder
              rw [hE]; simp [hoid, hfind, handleCancelOrder]
            have hbackend : (handleUpdateOrder s true).backend =
                s.backend.map (fun x =>
                  if x._id = o._id then patchOrderDoc x s.formState else x) := by
              unfold handleUpdateOrder
              rw [hE]; simp [hoid, hfind, handleCancelOrder]
            constructor
            · rw [horders]
              apply statusOf_map_completed_pres
              · intro x
                by_cases hx : x._id = o._id <;> simp [hx, patchOrderDoc, hd]
              · intro x _ hxid hxst
                by_cases hx : x._id = o._id
                · have hoid_eq : o._id = id := by rw [← hx, hxid]
                  have hdst : d.status = "completed" := by
                    rw [hoid_eq] at hfind
                    unfold statusOf at hb
                    rw [hfind] at hb
                    simpa using hb
                  simp only [hx, if_true, patchOrderDoc]
                  rcases hform with hf | hf <;> simp [hf, hdst]
                · simp [hx, hxst]
              · exact ho
            · rw [hbackend]
              apply statusOf_map_completed_pres
              · intro x
                by_cases hx : x._id = o._id <;> simp [hx, patchOrderDoc]
              · intro x _ _ hxst
                by_cases hx : x._id = o._id
                · simp only [hx, if_true, patchOrderDoc]
                  rcases hform with hf | hf <;> simp [hf, hxst]
                · simp [hx, hxst]
              · exact hb

/-- Witness for the amended C4 theorem: completing a concrete pending order
marks it completed, and submitting an untouched-status update afterwards
keeps it completed. -/
theorem order_status_transitions_witness :
    statusOf
      (handleComplete
        { backend := [{ _id := "o1", fullName := "n", email := "", phone := "",
                        address := "", city := "", postalCode := "",
                        country := "", paymentMethod := "",
                        paymentStatus := "", amount := 0, createdAt := "t",
                        status := "pending", cartItems := .items [] }]
          orders := [{ _id := "o1", fullName := "n", email := "", phone := "",
                       address := "", city := "", postalCode := "",
                       country := "", paymentMethod := "",
                       paymentStatus := "", amount := 0, createdAt := "t",
                       status := "pending", cartItems := .items [] }] }
        "o1" true).orders "o1" = some "completed" :=
  order_status_transitions.1
    { backend := [{ _id := "o1", fullName := "n", email := "", phone := "",
                    address := "", city := "", postalCode := "", country := "",
                    paymentMethod := "", paymentStatus := "", amount := 0,
                    createdAt := "t", status := "pending",
                    cartItems := .items [] }]
      orders := [{ _id := "o1", fullName := "n", email := "", phone := "",
                   address := "", city := "", postalCode := "", country := "",
                   paymentMethod := "", paymentStatus := "", amount := 0,
                   createdAt := "t", status := "pending",
                   cartItems := .items [] }] }
    "o1" "pending" (by decide)

lemma trimCharList_space_cons (l : List Char) :
    trimCharList (' ' :: l) = trimCharList l := by
  unfold trimCharList
  rw [List.dropWhile_cons_of_pos (by decide)]

lemma jsTrim_space_snoc (acc : List Char) :
    jsTrim (String.mk ((acc ++ [' ']).reverse)) = jsTrim (String.mk acc.reverse) := by
  rw [List.reverse_append]
  show jsTrim (String.mk ([' '] ++ acc.reverse)) = _
  rw [List.singleton_append]
  simp [jsTrim, trimCharList_space_cons]

lemma splitCommaAux_no_comma :
    ∀ (xs acc : List Char), ',' ∉ xs →
      splitCommaAux xs acc = [String.mk (acc.reverse ++ xs)]
  | [], acc, _ => by simp [splitCommaAux]
  | c :: cs, acc, h => by
    have hc : c ≠ ',' := fun hc => h (hc ▸ List.mem_cons_self c cs)
    simp only [splitCommaAux, if_neg hc]
    rw [splitCommaAux_no_comma cs (c :: acc)
      (fun hm => h (List.mem_cons_of_mem c hm))]
    simp

lemma splitCommaAux_append_comma :
    ∀ (xs rest acc : List Char), ',' ∉ xs →
      splitCommaAux (xs ++ ',' :: rest) acc =
        String.mk (acc.reverse ++ xs) :: splitCommaAux rest []
  | [], rest, acc, _ => by simp [splitCommaAux]
  | c :: cs, rest, acc, h => by
    have hc : c ≠ ',' := fun hc => h (hc ▸ List.mem_cons_self c cs)
    rw [show splitCommaAux ((c :: cs) ++ ',' :: rest) acc =
        (if c = ',' then
          String.mk acc.reverse :: splitCommaAux (cs ++ ',' :: rest) []
        else splitCommaAux (cs ++ ',' :: rest) (c :: acc)) from rfl,
      if_neg hc,
      splitCommaAux_append_comma cs rest (c :: acc)
        (fun hm => h (List.mem_cons_of_mem c hm))]
    simp

lemma splitCommaAux_trim_space :
    ∀ (cs acc : List Char),
      (splitCommaAux cs (acc ++ [' '])).map jsTrim =
        (splitCommaAux cs acc).map jsTrim
  | [], acc => by
    simp only [splitCommaAux, List.map_cons, List.map_nil]
    rw [jsTrim_space_snoc]
  | c :: cs, acc => by
    by_cases hc : c = ','
    · subst hc
      rw [show splitCommaAux (',' :: cs) (acc ++ [' ']) =
          String.mk (acc ++ [' ']).reverse :: splitCommaAux cs [] from rfl,
        show splitCommaAux (',' :: cs) acc =
          String.mk acc.reverse :: splitCommaAux cs [] from rfl,
        List.map_cons, List.map_cons, jsTrim_space_snoc]
    · rw [show splitCommaAux (c :: cs) (acc ++ [' ']) =
          (if c = ',' then
            String.mk (acc ++ [' ']).reverse :: splitCommaAux cs []
          else splitCommaAux cs (c :: (acc ++ [' ']))) from rfl,
        show splitCommaAux (c :: cs) acc =
          (if c = ',' then String.mk acc.reverse :: splitCommaAux cs []
          else splitCommaAux cs (c :: acc)) from rfl,
        if_neg hc, if_neg hc,
        show c :: (acc ++ [' ']) = (c :: acc) ++ [' '] from rfl,
        splitCommaAux_trim_space cs (c :: acc)]

lemma jsJoin_data_cons_cons (x y : String) (rest : List String) :
    (jsJoin ", " (x :: y :: rest)).data =
      x.data ++ ',' :: ' ' :: (jsJoin ", " (y :: rest)).data := by
  show (x ++ ", " ++ jsJoin ", " (y :: rest)).data = _
  rw [String.data_append, String.data_append, List.append_assoc]
  rfl

lemma jsJoin_isEmpty_false (x : String) (rest : List String) (hx : x ≠ "") :
    (jsJoin ", " (x :: rest)).isEmpty = false := by
  cases rest with
  | nil =>
    cases hxe : (jsJoin ", " [x]).isEmpty
    · rfl
    · exact absurd ((String.isEmpty_iff x).mp hxe) hx
  | cons y rest =>
    cases hxe : (jsJoin ", " (x :: y :: rest)).isEmpty
    · rfl
    · exfalso
      have hemp : jsJoin ", " (x :: y :: rest) = "" :=
        (String.isEmpty_iff _).mp hxe
      have hdata : (jsJoin ", " (x :: y :: rest)).data = [] := by
        rw [hemp]
      rw [jsJoin_data_cons_cons] at hdata
      simp at hdata

lemma split_trim_join :
    ∀ ids : List String, (∀ x ∈ ids, jsTrim x = x ∧ ',' ∉ x.data) →
      ids ≠ [] → (splitComma (jsJoin ", " ids)).map jsTrim = ids
  | [], _, hne => absurd rfl hne
  | [x], h, _ => by
    have hx := h x (List.mem_singleton.mpr rfl)
    show (splitCommaAux x.data []).map jsTrim = [x]
    rw [splitCommaAux_no_comma x.data [] hx.2]
    simp [hx.1]
  | x :: y :: rest, h, _ => by
    have hx := h x (List.mem_cons_self x (y :: rest))
    have htail : ∀ z ∈ y :: rest, jsTrim z = z ∧ ',' ∉ z.data :=
      fun z hz => h z (List.mem_cons_of_mem x hz)
    have ih := split_trim_join (y :: rest) htail (by simp)
    show (splitCommaAux (jsJoin ", " (x :: y :: rest)).data []).map jsTrim =
      x :: y :: rest
    rw [jsJoin_data_cons_cons x y rest,
      splitCommaAux_append_comma x.data
        (' ' :: (jsJoin ", " (y :: rest)).data) [] hx.2]
    have hstep :
        splitCommaAux (' ' :: (jsJoin ", " (y :: rest)).data) [] =
          splitCommaAux (jsJoin ", " (y :: rest)).data [' '] := by
      simp [splitCommaAux]
    rw [List.map_cons, hstep,
      show ([' '] : List Char) = [] ++ [' '] from rfl,
      splitCommaAux_trim_space (jsJoin ", " (y :: rest)).data []]
    rw [show splitCommaAux (jsJoin ", " (y :: rest)).data [] =
      splitComma (jsJoin ", " (y :: rest)) from rfl, ih]
    simp [hx.1]

/-- C10: an order edit submission patches `cartItems` to the comma-split,
whitespace-trimmed list of the id strings in the form's text field — the
empty list when the field is empty or absent — replacing the structured line
items of the stored document and discarding their quantities and product
details.  Moreover the text handleEditClick puts into that field is the
", "-join of the line items' product ids, and for clean ids (nonempty,
comma-free, trim-invariant) splitting it back yields exactly the product-id
list. -/
theorem order_update_cart_items :
    (splitTrimmedCartItems none = [] ∧ splitTrimmedCartItems (some "") = []) ∧
    (∀ (s : OrderScreen) (o d : OrderDoc),
      s.editingOrder = some o → o._id.isEmpty = false →
      s.backend.find? (fun x => x._id == o._id) = some d →
      ∀ x ∈ (handleUpdateOrder s true).backend, x._id = o._id →
        x.cartItems = .refs (splitTrimmedCartItems s.formState.cartItems)) ∧
    (∀ (o : OrderDoc) (l : List CartItem) (b : OrderInput),
      o.cartItems = .items l →
      (∀ it ∈ l, jsTrim it.product._id = it.product._id ∧
        ',' ∉ it.product._id.data ∧ it.product._id ≠ "") →
      orderEditBuffer o = some b →
      b.cartItems = some (jsJoin ", " (l.map (fun it => it.product._id))) ∧
      splitTrimmedCartItems b.cartItems =
        l.map (fun it => it.product._id)) := by
  refine ⟨⟨rfl, rfl⟩, ?_, ?_⟩
  · intro s o d hE hoid hfind x hx hxid
    have hbackend : (handleUpdateOrder s true).backend =
        s.backend.map (fun z =>
          if z._id = o._id then patchOrderDoc z s.formState else z) := by
      unfold handleUpdateOrder
      rw [hE]; simp [hoid, hfind, handleCancelOrder]
    rw [hbackend] at hx
    obtain ⟨y, _, rfl⟩ := List.mem_map.mp hx
    by_cases hy : y._id = o._id
    · simp [hy, patchOrderDoc]
    · rw [if_neg hy] at hxid ⊢
      exact absurd hxid hy
  · intro o l b hitems hclean hbuf
    unfold orderEditBuffer at hbuf
    rw [hitems] at hbuf
    have hb : b.cartItems =
        some (jsJoin ", " (l.map (fun it => it.product._id))) := by
      have hrec := Option.some.inj hbuf
      rw [← hrec]
    refine ⟨hb, ?_⟩
    rw [hb]
    cases hl : l with
    | nil => decide
    | cons it rest =>
      have hclean' : ∀ z ∈ (it :: rest).map (fun i => i.product._id),
          jsTrim z = z ∧ ',' ∉ z.data := by
        intro z hz
        obtain ⟨w, hw, rfl⟩ := List.mem_map.mp hz
        have hcw := hclean w (hl ▸ hw)
        exact ⟨hcw.1, hcw.2.1⟩
      have hne : it.product._id ≠ "" :=
        (hclean it (hl ▸ List.mem_cons_self it rest)).2.2
      have hJ : (jsJoin ", "
          ((it :: rest).map (fun i => i.product._id))).isEmpty = false := by
        rw [List.map_cons]
        exact jsJoin_isEmpty_false _ _ hne
      have hsplit := split_trim_join
        ((it :: rest).map (fun i => i.product._id)) hclean' (by simp)
      rw [show splitTrimmedCartItems
          (some (jsJoin ", " ((it :: rest).map (fun i => i.product._id)))) =
        (if (jsJoin ", "
            ((it :: rest).map (fun i => i.product._id))).isEmpty = true then []
        else (splitComma (jsJoin ", "
            ((it :: rest).map (fun i => i.product._id)))).map jsTrim)
        from rfl, hJ]
      simpa using hsplit

/-- Witness for C10: editing a concrete order with two line items (ids "a"
and "b") produces the buffer text "a, b", and submitting splits it back to
the two ids. -/
theorem order_update_cart_items_witness :
    splitTrimmedCartItems (some "a, b") = ["a", "b"] := by
  have h := (order_update_cart_items.2.2
    { _id := "o1", fullName := "n", email := "", phone := "", address := "",
      city := "", postalCode := "", country := "", paymentMethod := "",
      paymentStatus := "", amount := 0, createdAt := "t",
      status := "pending",
      cartItems := .items
        [{ quantity := 2,
           product := { _id := "a", name := "p", imageUrl := "" } },
         { quantity := 1,
           product := { _id := "b", name := "q", imageUrl := "" } }] }
    [{ quantity := 2, product := { _id := "a", name := "p", imageUrl := "" } },
     { quantity := 1, product := { _id := "b", name := "q", imageUrl := "" } }]
    { _id := some "o1", fullName := some "n", email := some "",
      phone := some "", address := some "", city := some "",
      postalCode := some "", country := some "", paymentMethod := some "",
      paymentStatus := some "", amount := some 0, createdAt := some "t",
      status := some "pending", cartItems := some "a, b" }
    rfl (by decide) (by decide)).2
  simpa using h

end AdminDashboard
